import Mathlib

/-!
Verification of the settings-persistence backend in
`src/upload-gui/src-tauri/src/lib.rs`.

The Rust code defines a flat `AppSettings` record, persists it as JSON under
a fixed key in a local key-value store (`tauri_plugin_store`), and exposes a
few stub capability probes.  We embed the JSON values, the store, and each
command as executable Lean definitions, with the environmental effects
(store availability, flush outcome, process environment) passed explicitly.
-/

/-- JSON values as produced/consumed by `serde_json` in the source
(only the shapes that can occur here; numbers are integers). -/
inductive JsonValue where
  | null
  | bool (b : Bool)
  | num (n : Int)
  | str (s : String)
  | arr (xs : List JsonValue)
  | obj (fields : List (String × JsonValue))
deriving Repr

/-- First-match lookup in a JSON object / association list. -/
def jLookup (fields : List (String × JsonValue)) (k : String) : Option JsonValue :=
  (fields.find? (fun p => p.1 == k)).map Prod.snd

/-- The `AppSettings` struct from `lib.rs` (strings stay `String`, `bool`
stays `Bool`, `u32` counters become `Nat` constrained by `fitsU32`). -/
structure AppSettings where
  r2_account_id : String
  r2_access_key_id : String
  r2_secret_access_key : String
  r2_bucket_name : String
  gpu_enabled : Bool
  parallel_processing_count : Nat
  max_parallel_processing : Nat
  delete_original_after_conversion : Bool
  cleanup_hls_temp_files : Bool
  keep_original_mp4 : Bool
  include_480p : Bool
deriving Repr, DecidableEq

/-- The `u32` fields of the Rust struct are below `2^32`. -/
def AppSettings.fitsU32 (s : AppSettings) : Prop :=
  s.parallel_processing_count < 2 ^ 32 ∧ s.max_parallel_processing < 2 ^ 32

instance (s : AppSettings) : Decidable s.fitsU32 := by
  unfold AppSettings.fitsU32; infer_instance

/-- `impl Default for AppSettings` from `lib.rs`. -/
def AppSettings.default : AppSettings :=
  { r2_account_id := ""
    r2_access_key_id := ""
    r2_secret_access_key := ""
    r2_bucket_name := ""
    gpu_enabled := true
    parallel_processing_count := 2
    max_parallel_processing := 4
    delete_original_after_conversion := false
    cleanup_hls_temp_files := true
    keep_original_mp4 := true
    include_480p := false }

/-- `serde_json::to_value` on `AppSettings` (derived `Serialize`):
a JSON object with one entry per field, in declaration order. -/
def to_value (s : AppSettings) : JsonValue :=
  .obj
    [("r2_account_id", .str s.r2_account_id),
     ("r2_access_key_id", .str s.r2_access_key_id),
     ("r2_secret_access_key", .str s.r2_secret_access_key),
     ("r2_bucket_name", .str s.r2_bucket_name),
     ("gpu_enabled", .bool s.gpu_enabled),
     ("parallel_processing_count", .num (Int.ofNat s.parallel_processing_count)),
     ("max_parallel_processing", .num (Int.ofNat s.max_parallel_processing)),
     ("delete_original_after_conversion", .bool s.delete_original_after_conversion),
     ("cleanup_hls_temp_files", .bool s.cleanup_hls_temp_files),
     ("keep_original_mp4", .bool s.keep_original_mp4),
     ("include_480p", .bool s.include_480p)]

/-- Deserializing a JSON value as a Rust `String`. -/
def asString : JsonValue → Option String
  | .str s => some s
  | _ => none

/-- Deserializing a JSON value as a Rust `bool`. -/
def asBool : JsonValue → Option Bool
  | .bool b => some b
  | _ => none

/-- Deserializing a JSON value as a Rust `u32`: an integer in `[0, 2^32)`. -/
def asU32 : JsonValue → Option Nat
  | .num n => if 0 ≤ n ∧ n < 2 ^ 32 then some n.toNat else none
  | _ => none

/-- `serde_json::from_value::<AppSettings>` (derived `Deserialize`):
requires a JSON object with every field present at the right type;
anything else is a deserialization error (`none`). -/
def from_value : JsonValue → Option AppSettings
  | .obj fs => do
      let a ← jLookup fs "r2_account_id" >>= asString
      let b ← jLookup fs "r2_access_key_id" >>= asString
      let c ← jLookup fs "r2_secret_access_key" >>= asString
      let d ← jLookup fs "r2_bucket_name" >>= asString
      let e ← jLookup fs "gpu_enabled" >>= asBool
      let f ← jLookup fs "parallel_processing_count" >>= asU32
      let g ← jLookup fs "max_parallel_processing" >>= asU32
      let h ← jLookup fs "delete_original_after_conversion" >>= asBool
      let i ← jLookup fs "cleanup_hls_temp_files" >>= asBool
      let j ← jLookup fs "keep_original_mp4" >>= asBool
      let k ← jLookup fs "include_480p" >>= asBool
      pure
        { r2_account_id := a, r2_access_key_id := b, r2_secret_access_key := c
          r2_bucket_name := d, gpu_enabled := e, parallel_processing_count := f
          max_parallel_processing := g, delete_original_after_conversion := h
          cleanup_hls_temp_files := i, keep_original_mp4 := j, include_480p := k }
  | _ => none

/-- The key-value store backing `settings.json` (`tauri_plugin_store`). -/
structure Store where
  entries : List (String × JsonValue)
deriving Repr

/-- `store.get(key)` from the source. -/
def Store.get (s : Store) (k : String) : Option JsonValue :=
  jLookup s.entries k

/-- `store.set(key, value)` from the source: overwrite the entry. -/
def Store.set (s : Store) (k : String) (v : JsonValue) : Store :=
  ⟨(k, v) :: s.entries.filter (fun p => p.1 != k)⟩

/-- The fixed key both `load_settings` and `save_settings` use. -/
def settingsKey : String := "app_settings"

/-- Whether an `Except` result is an error. -/
def isError : Except String α → Bool
  | .error _ => true
  | .ok _ => false

/-- `load_settings` from `lib.rs`.  The `tauri::AppHandle` only serves to
obtain the store, so the embedding takes the outcome of
`get_store(&app, "settings.json")` (`Option Store`) directly. -/
def load_settings (store? : Option Store) : Except String AppSettings :=
  match store? with
  | none => .error "Failed to get store"
  | some store =>
    let settings :=
      match store.get settingsKey with
      | some value => (from_value value).getD AppSettings.default
      | none => AppSettings.default
    .ok settings

/-- `serde_json::to_value(&settings).map_err(...)` in `save_settings`:
serialization of this struct of strings/bools/u32s cannot fail, so the
error branch of the `map_err` is never taken. -/
def to_value_result (s : AppSettings) : Except String JsonValue :=
  .ok (to_value s)

/-- `save_settings` from `lib.rs`.  `flush` is the outcome of
`store.save()` on the updated store (an environmental effect); on success
the embedding returns the store state that was flushed. -/
def save_settings (store? : Option Store) (flush : Store → Except String Unit)
    (settings : AppSettings) : Except String Store :=
  match store? with
  | none => .error "Failed to get store"
  | some store =>
    match to_value_result settings with
    | .error e => .error ("Failed to serialize settings: " ++ e)
    | .ok settings_value =>
      let store := store.set settingsKey settings_value
      match flush store with
      | .error e => .error ("Failed to persist settings: " ++ e)
      | .ok _ => .ok store

/-- `test_gpu_capabilities` from `lib.rs`: a hard-coded mapping
(the `HashMap` is embedded as its association list of entries). -/
def test_gpu_capabilities : Except String (List (String × JsonValue)) :=
  .ok
    [("has_nvidia", .bool false),
     ("has_amd", .bool false),
     ("has_intel", .bool false),
     ("recommended_encoder", .str "libx264"),
     ("gpu_available", .bool false)]

/-- `validate_r2_connection` from `lib.rs`. -/
def validate_r2_connection (settings : AppSettings) : Except String Bool :=
  if settings.r2_account_id.isEmpty ||
     settings.r2_access_key_id.isEmpty ||
     settings.r2_secret_access_key.isEmpty ||
     settings.r2_bucket_name.isEmpty then
    .error "All R2 credentials are required"
  else
    .ok true

/-- `detect_display_server` from `lib.rs`.  The process environment is an
explicit parameter (`std::env::var` yields `none` when unset and
`unwrap_or_default()` turns that into `""`); the returned `HashMap` is
embedded as its association list of entries. -/
def detect_display_server (env : String → Option String) :
    List (String × JsonValue) :=
  let wayland_display := (env "WAYLAND_DISPLAY").getD ""
  let session_type := (env "XDG_SESSION_TYPE").getD ""
  let is_wayland := !wayland_display.isEmpty || session_type == "wayland"
  let gdk_backend := (env "GDK_BACKEND").getD ""
  let webkit_compositing := (env "WEBKIT_DISABLE_COMPOSITING_MODE").getD ""
  [("is_wayland", .bool is_wayland),
   ("session_type", .str session_type),
   ("wayland_display", .str wayland_display),
   ("gdk_backend", .str gdk_backend),
   ("webkit_compositing_disabled", .str webkit_compositing)]

/-- The fields of `AppSettings`, for stating per-field update properties. -/
inductive SettingsField where
  | r2_account_id
  | r2_access_key_id
  | r2_secret_access_key
  | r2_bucket_name
  | gpu_enabled
  | parallel_processing_count
  | max_parallel_processing
  | delete_original_after_conversion
  | cleanup_hls_temp_files
  | keep_original_mp4
  | include_480p
deriving Repr, DecidableEq

/-- A value one field of `AppSettings` can hold. -/
inductive FieldValue where
  | str (v : String)
  | bool (v : Bool)
  | nat (v : Nat)
deriving Repr, DecidableEq

/-- Read one field of an `AppSettings` record. -/
def AppSettings.get (s : AppSettings) : SettingsField → FieldValue
  | .r2_account_id => .str s.r2_account_id
  | .r2_access_key_id => .str s.r2_access_key_id
  | .r2_secret_access_key => .str s.r2_secret_access_key
  | .r2_bucket_name => .str s.r2_bucket_name
  | .gpu_enabled => .bool s.gpu_enabled
  | .parallel_processing_count => .nat s.parallel_processing_count
  | .max_parallel_processing => .nat s.max_parallel_processing
  | .delete_original_after_conversion => .bool s.delete_original_after_conversion
  | .cleanup_hls_temp_files => .bool s.cleanup_hls_temp_files
  | .keep_original_mp4 => .bool s.keep_original_mp4
  | .include_480p => .bool s.include_480p

/-- Whether a `FieldValue` has the type of a given field. -/
def fieldTyped : SettingsField → FieldValue → Bool
  | .r2_account_id, .str _ => true
  | .r2_access_key_id, .str _ => true
  | .r2_secret_access_key, .str _ => true
  | .r2_bucket_name, .str _ => true
  | .gpu_enabled, .bool _ => true
  | .parallel_processing_count, .nat _ => true
  | .max_parallel_processing, .nat _ => true
  | .delete_original_after_conversion, .bool _ => true
  | .cleanup_hls_temp_files, .bool _ => true
  | .keep_original_mp4, .bool _ => true
  | .include_480p, .bool _ => true
  | _, _ => false

/-- Mutate one field of an `AppSettings` record (no-op on a type mismatch). -/
def AppSettings.setField (s : AppSettings) : SettingsField → FieldValue → AppSettings
  | .r2_account_id, .str v => { s with r2_account_id := v }
  | .r2_access_key_id, .str v => { s with r2_access_key_id := v }
  | .r2_secret_access_key, .str v => { s with r2_secret_access_key := v }
  | .r2_bucket_name, .str v => { s with r2_bucket_name := v }
  | .gpu_enabled, .bool v => { s with gpu_enabled := v }
  | .parallel_processing_count, .nat v => { s with parallel_processing_count := v }
  | .max_parallel_processing, .nat v => { s with max_parallel_processing := v }
  | .delete_original_after_conversion, .bool v => { s with delete_original_after_conversion := v }
  | .cleanup_hls_temp_files, .bool v => { s with cleanup_hls_temp_files := v }
  | .keep_original_mp4, .bool v => { s with keep_original_mp4 := v }
  | .include_480p, .bool v => { s with include_480p := v }
  | _, _ => s

theorem jLookup_cons_self (k : String) (v : JsonValue) (fs : List (String × JsonValue)) :
    jLookup ((k, v) :: fs) k = some v := by
  simp [jLookup]

theorem jLookup_cons_of_ne (k' k : String) (v : JsonValue) (fs : List (String × JsonValue))
    (h : (k' == k) = false) :
    jLookup ((k', v) :: fs) k = jLookup fs k := by
  simp [jLookup, List.find?, h]

theorem asString_str (s : String) : asString (.str s) = some s := rfl

theorem asBool_bool (b : Bool) : asBool (.bool b) = some b := rfl

theorem asU32_natCast (n : Nat) (h : n < 2 ^ 32) :
    asU32 (JsonValue.num (n : Int)) = some n := by
  have hc : (0 : Int) ≤ (n : Int) ∧ (n : Int) < 2 ^ 32 := by omega
  simp [asU32, hc]
  omega

set_option maxHeartbeats 2000000 in
/-- Deserialization undoes serialization on any record whose counters fit
in `u32` (in the source both are `u32` fields, so this always holds). -/
theorem from_value_to_value (s : AppSettings) (h : s.fitsU32) :
    from_value (to_value s) = some s := by
  have hn1 := asU32_natCast s.parallel_processing_count h.1
  have hn2 := asU32_natCast s.max_parallel_processing h.2
  rw [to_value]
  simp only [from_value]
  simp only [jLookup_cons_self]
  simp [jLookup_cons_of_ne]
  simp only [asString_str, asBool_bool]
  simp only [jLookup_cons_self]
  rw [Option.some_bind]
  rw [Option.some_bind, asString_str, Option.some_bind]
  rw [Option.some_bind, asString_str, Option.some_bind]
  rw [Option.some_bind, asString_str, Option.some_bind]
  rw [Option.some_bind, asBool_bool, Option.some_bind]
  rw [Option.some_bind, hn1, Option.some_bind]
  rw [Option.some_bind, hn2, Option.some_bind]
  rw [Option.some_bind, asBool_bool, Option.some_bind]
  rw [Option.some_bind, asBool_bool, Option.some_bind]
  rw [Option.some_bind, asBool_bool, Option.some_bind]
  rw [Option.some_bind, asBool_bool, Option.some_bind]

/-- Unfolding `save_settings` on an available store. -/
theorem save_settings_some (store : Store) (flush : Store → Except String Unit)
    (s : AppSettings) :
    save_settings (some store) flush s =
      match flush (store.set settingsKey (to_value s)) with
      | .error e => .error ("Failed to persist settings: " ++ e)
      | .ok _ => .ok (store.set settingsKey (to_value s)) := rfl

/-- Unfolding `load_settings` on an available store. -/
theorem load_settings_some (store : Store) :
    load_settings (some store) =
      .ok (match store.get settingsKey with
           | some value => (from_value value).getD AppSettings.default
           | none => AppSettings.default) := rfl

theorem Store.get_set_self (st : Store) (k : String) (v : JsonValue) :
    (st.set k v).get k = some v :=
  jLookup_cons_self _ _ _

/-- A successful save leaves the store holding exactly the serialized record
under the fixed key, and a reload then yields the saved record. -/
theorem save_load_aux (store? : Option Store) (flush : Store → Except String Unit)
    (s : AppSettings) (st' : Store) (hfit : s.fitsU32)
    (hsave : save_settings store? flush s = .ok st') :
    load_settings (some st') = .ok s := by
  match store? with
  | none => exact absurd hsave (by simp [save_settings])
  | some store =>
    rw [save_settings_some] at hsave
    rcases hflush : flush (store.set settingsKey (to_value s)) with e | u
    · rw [hflush] at hsave
      exact absurd hsave (by simp)
    · rw [hflush] at hsave
      obtain rfl : store.set settingsKey (to_value s) = st' := by
        simpa using hsave
      rw [load_settings_some, Store.get_set_self]
      simp only [from_value_to_value s hfit, Option.getD_some]

theorem get_setField_self (s : AppSettings) (f : SettingsField) (v : FieldValue)
    (h : fieldTyped f v = true) : (s.setField f v).get f = v := by
  cases f <;> cases v <;> simp_all [fieldTyped, AppSettings.setField, AppSettings.get]

theorem get_setField_of_ne (s : AppSettings) (f g : SettingsField) (v : FieldValue)
    (h : g ≠ f) : (s.setField f v).get g = s.get g := by
  cases f <;> cases g <;> cases v <;>
    simp_all [AppSettings.setField, AppSettings.get]

/-- C1: `load_settings` fails only when the store cannot be obtained
(`none`); when the store is available it never fails: a missing
`app_settings` key or a value on which deserialization fails silently
yields the documented default record. -/
theorem load_settings_masks_deserialization_failure :
    load_settings none = .error "Failed to get store" ∧
    (∀ store : Store, store.get settingsKey = none →
      load_settings (some store) = .ok AppSettings.default) ∧
    (∀ (store : Store) (v : JsonValue),
      store.get settingsKey = some v → from_value v = none →
      load_settings (some store) = .ok AppSettings.default) ∧
    (∀ store : Store, ∃ s, load_settings (some store) = .ok s) := by
  refine ⟨rfl, ?_, ?_, ?_⟩
  · intro store h
    rw [load_settings_some, h]
  · intro store v hv hfv
    rw [load_settings_some, hv]
    simp [hfv]
  · intro store
    exact ⟨_, load_settings_some store⟩

/-- C2: `validate_r2_connection` returns an error iff at least one of the
four credential strings is empty; with all four empty it errors, with all
four non-empty it succeeds. -/
theorem validate_r2_connection_error_iff (s : AppSettings) :
    (isError (validate_r2_connection s) = true ↔
      (s.r2_account_id = "" ∨ s.r2_access_key_id = "" ∨
        s.r2_secret_access_key = "" ∨ s.r2_bucket_name = "")) ∧
    ((s.r2_account_id ≠ "" ∧ s.r2_access_key_id ≠ "" ∧
        s.r2_secret_access_key ≠ "" ∧ s.r2_bucket_name ≠ "") →
      validate_r2_connection s = .ok true) ∧
    ((s.r2_account_id = "" ∧ s.r2_access_key_id = "" ∧
        s.r2_secret_access_key = "" ∧ s.r2_bucket_name = "") →
      isError (validate_r2_connection s) = true) := by
  have hiff : (s.r2_account_id.isEmpty || s.r2_access_key_id.isEmpty ||
      s.r2_secret_access_key.isEmpty || s.r2_bucket_name.isEmpty) = true ↔
      (s.r2_account_id = "" ∨ s.r2_access_key_id = "" ∨
        s.r2_secret_access_key = "" ∨ s.r2_bucket_name = "") := by
    simp [String.isEmpty_iff, or_assoc]
  unfold validate_r2_connection
  split
  case isTrue h =>
    refine ⟨by simpa [isError] using hiff.mp h, fun hc => ?_, fun _ => rfl⟩
    rcases hiff.mp h with h1 | h1 | h1 | h1 <;> simp_all
  case isFalse h =>
    refine ⟨by simpa [isError] using fun hc => h (hiff.mpr hc), fun _ => rfl, fun hc => ?_⟩
    exact absurd (hiff.mpr (Or.inl hc.1)) h

/-- C3: if `save_settings s` succeeds then `load_settings` on the flushed
store returns exactly `s` (save/load round-trip). -/
theorem save_then_load_roundtrip (store? : Option Store)
    (flush : Store → Except String Unit) (s : AppSettings) (st' : Store)
    (hfit : s.fitsU32) (hsave : save_settings store? flush s = .ok st') :
    load_settings (some st') = .ok s :=
  save_load_aux store? flush s st' hfit hsave

/-- C3 witness: saving the default record to an empty store and reloading
returns the default record. -/
theorem save_then_load_roundtrip_witness :
    load_settings (some (Store.mk [("app_settings", to_value AppSettings.default)])) =
      .ok AppSettings.default :=
  save_then_load_roundtrip (some ⟨[]⟩) (fun _ => .ok ()) AppSettings.default
    ⟨[("app_settings", to_value AppSettings.default)]⟩ (by decide) rfl

/-- C4: saving a record with one field mutated and reloading yields a
record whose mutated field holds exactly the new value and whose other
fields are unchanged. -/
theorem save_mutated_then_load_frame (store? : Option Store)
    (flush : Store → Except String Unit) (s : AppSettings)
    (f : SettingsField) (v : FieldValue) (st' : Store)
    (hty : fieldTyped f v = true) (hfit : (s.setField f v).fitsU32)
    (hsave : save_settings store? flush (s.setField f v) = .ok st') :
    ∃ r, load_settings (some st') = .ok r ∧ r.get f = v ∧
      ∀ g : SettingsField, g ≠ f → r.get g = s.get g :=
  ⟨s.setField f v, save_load_aux store? flush _ st' hfit hsave,
    get_setField_self s f v hty, fun g hg => get_setField_of_ne s f g v hg⟩

/-- C4 witness: mutating `gpu_enabled` to `false` on the default record,
saving and reloading, reflects exactly that mutation. -/
theorem save_mutated_then_load_frame_witness :
    ∃ r, load_settings (some (Store.mk
        [("app_settings",
          to_value (AppSettings.default.setField .gpu_enabled (.bool false)))])) = .ok r ∧
      r.get .gpu_enabled = .bool false ∧
      ∀ g : SettingsField, g ≠ .gpu_enabled → r.get g = AppSettings.default.get g :=
  save_mutated_then_load_frame (some ⟨[]⟩) (fun _ => .ok ()) AppSettings.default
    .gpu_enabled (.bool false) _ (by decide) (by decide) rfl

/-- C5: `save_settings` serializes the record, writes it under the same
fixed key `load_settings` reads, then flushes; it fails iff the store
cannot be obtained, serialization fails, or the flush fails, each failure
an opaque string. -/
theorem save_settings_behavior (flush : Store → Except String Unit) (s : AppSettings) :
    save_settings none flush s = .error "Failed to get store" ∧
    (∀ store : Store,
      (∀ e, flush (store.set settingsKey (to_value s)) = .error e →
        save_settings (some store) flush s =
          .error ("Failed to persist settings: " ++ e)) ∧
      (∀ u, flush (store.set settingsKey (to_value s)) = .ok u →
        save_settings (some store) flush s = .ok (store.set settingsKey (to_value s)) ∧
        (store.set settingsKey (to_value s)).get settingsKey = some (to_value s))) ∧
    (∀ store? : Option Store,
      isError (save_settings store? flush s) = true ↔
        (store? = none ∨ isError (to_value_result s) = true ∨
          ∃ store, store? = some store ∧
            isError (flush (store.set settingsKey (to_value s))) = true)) := by
  refine ⟨rfl, fun store => ⟨?_, ?_⟩, ?_⟩
  · intro e he
    rw [save_settings_some, he]
  · intro u hu
    rw [save_settings_some, hu]
    exact ⟨rfl, Store.get_set_self _ _ _⟩
  · intro store?
    match store? with
    | none => simp [save_settings, isError]
    | some store =>
      rw [save_settings_some]
      rcases hflush : flush (store.set settingsKey (to_value s)) with e | u <;>
        simp [isError, to_value_result, hflush]

/-- C6: with `WAYLAND_DISPLAY` set non-empty and `XDG_SESSION_TYPE` unset,
`detect_display_server` reports `is_wayland = true`, and absent variables
appear in the mapping as empty strings. -/
theorem detect_display_server_wayland (env : String → Option String) (w : String)
    (hw : env "WAYLAND_DISPLAY" = some w) (hwne : w ≠ "")
    (hx : env "XDG_SESSION_TYPE" = none) :
    jLookup (detect_display_server env) "is_wayland" = some (.bool true) ∧
    jLookup (detect_display_server env) "session_type" = some (.str "") ∧
    jLookup (detect_display_server env) "wayland_display" = some (.str w) ∧
    (env "GDK_BACKEND" = none →
      jLookup (detect_display_server env) "gdk_backend" = some (.str "")) ∧
    (env "WEBKIT_DISABLE_COMPOSITING_MODE" = none →
      jLookup (detect_display_server env) "webkit_compositing_disabled" =
        some (.str "")) := by
  have hwb : w.isEmpty = false := by
    rw [← Bool.not_eq_true]
    simpa [String.isEmpty_iff] using hwne
  simp only [detect_display_server, hw, hx, Option.getD_some, Option.getD_none]
  refine ⟨?_, ?_, ?_, ?_, ?_⟩
  · rw [jLookup_cons_self]
    simp [hwb]
  · rw [jLookup_cons_of_ne _ _ _ _ (by decide), jLookup_cons_self]
  · rw [jLookup_cons_of_ne _ _ _ _ (by decide), jLookup_cons_of_ne _ _ _ _ (by decide),
      jLookup_cons_self]
  · intro hg
    rw [hg]
    rw [jLookup_cons_of_ne _ _ _ _ (by decide), jLookup_cons_of_ne _ _ _ _ (by decide),
      jLookup_cons_of_ne _ _ _ _ (by decide), jLookup_cons_self]
    rfl
  · intro hwk
    rw [hwk]
    rw [jLookup_cons_of_ne _ _ _ _ (by decide), jLookup_cons_of_ne _ _ _ _ (by decide),
      jLookup_cons_of_ne _ _ _ _ (by decide), jLookup_cons_of_ne _ _ _ _ (by decide),
      jLookup_cons_self]
    rfl

/-- C6 witness: a concrete environment with `WAYLAND_DISPLAY=wayland-0`
and nothing else set reports `is_wayland = true`. -/
theorem detect_display_server_wayland_witness :
    jLookup (detect_display_server
        (fun k => if k == "WAYLAND_DISPLAY" then some "wayland-0" else none))
      "is_wayland" = some (.bool true) :=
  (detect_display_server_wayland
    (fun k => if k == "WAYLAND_DISPLAY" then some "wayland-0" else none)
    "wayland-0" rfl (by decide) rfl).1

/-- C7: `test_gpu_capabilities` returns the fixed hard-coded mapping:
no NVIDIA/AMD/Intel GPU, GPU unavailable, recommended encoder libx264. -/
theorem test_gpu_capabilities_constant :
    ∃ caps, test_gpu_capabilities = .ok caps ∧
      caps.length = 5 ∧
      jLookup caps "has_nvidia" = some (.bool false) ∧
      jLookup caps "has_amd" = some (.bool false) ∧
      jLookup caps "has_intel" = some (.bool false) ∧
      jLookup caps "gpu_available" = some (.bool false) ∧
      jLookup caps "recommended_encoder" = some (.str "libx264") :=
  ⟨_, rfl, rfl, rfl, rfl, rfl, rfl, rfl⟩

/-- C8: `validate_r2_connection` never returns `Ok(false)`: every result
is `Ok(true)` or the fixed error string. -/
theorem validate_r2_connection_never_ok_false (s : AppSettings) :
    (validate_r2_connection s = .ok true ∨
      validate_r2_connection s = .error "All R2 credentials are required") ∧
    validate_r2_connection s ≠ .ok false := by
  unfold validate_r2_connection
  split
  · exact ⟨Or.inr rfl, by simp⟩
  · exact ⟨Or.inl rfl, by simp⟩

/-- C9: the default record's exact field values, and that
`validate_r2_connection` rejects the default record. -/
theorem appSettings_default_values :
    AppSettings.default.r2_account_id = "" ∧
    AppSettings.default.r2_access_key_id = "" ∧
    AppSettings.default.r2_secret_access_key = "" ∧
    AppSettings.default.r2_bucket_name = "" ∧
    AppSettings.default.gpu_enabled = true ∧
    AppSettings.default.parallel_processing_count = 2 ∧
    AppSettings.default.max_parallel_processing = 4 ∧
    AppSettings.default.delete_original_after_conversion = false ∧
    AppSettings.default.cleanup_hls_temp_files = true ∧
    AppSettings.default.keep_original_mp4 = true ∧
    AppSettings.default.include_480p = false ∧
    validate_r2_connection AppSettings.default =
      .error "All R2 credentials are required" :=
  ⟨rfl, rfl, rfl, rfl, rfl, rfl, rfl, rfl, rfl, rfl, rfl, rfl⟩

theorem string_isEmpty_false_iff (t : String) : t.isEmpty = false ↔ t ≠ "" := by
  constructor
  · intro h he
    subst he
    exact absurd h (by decide)
  · intro h
    rw [← Bool.not_eq_true]
    intro hb
    exact h ((String.isEmpty_iff _).mp hb)

/-- C10: the reported `is_wayland` is true iff `WAYLAND_DISPLAY` (empty
when unset) is non-empty or `XDG_SESSION_TYPE` (empty when unset) equals
"wayland". -/
theorem detect_display_server_is_wayland_iff (env : String → Option String) :
    jLookup (detect_display_server env) "is_wayland" = some (.bool true) ↔
      ((env "WAYLAND_DISPLAY").getD "" ≠ "" ∨
        (env "XDG_SESSION_TYPE").getD "" = "wayland") := by
  simp only [detect_display_server]
  rw [jLookup_cons_self]
  simp [string_isEmpty_false_iff]
